import Mathlib

/-!
Verification of the RakNet reliability and session layer of the inferno
Bedrock server. Rust sources are shallowly embedded: byte buffers become
`List Nat` (each entry one byte), machine integers become `Nat` with
explicit `% 2 ^ w` where the Rust type forces a width, fallible code
returns `Option` or `Except`, and stateful session code becomes explicit
state passing over small state records. Every definition is translated
from the file it names in its doc comment; definitions for code of the
repository that is not present under src/ are marked
`Modelled from the spec:`.
-/

set_option maxRecDepth 10000

namespace Inferno

/-- Modelled from the spec: the RakNet reliability variants (spec section 3,
data model). The enum lives in the raknet crate reliability module, which is
not present under src/; discriminants follow the listing order of the spec,
matching the 3-bit wire encoding used by frame.rs. -/
inductive Reliability
  | unreliable
  | unreliableSequenced
  | reliable
  | reliableOrdered
  | reliableSequenced
  | unreliableWithAckReceipt
  | reliableWithAckReceipt
  | reliableOrderedWithAckReceipt
deriving DecidableEq, Repr

/-- Modelled from the spec: discriminant of a reliability variant, used as the
top 3 bits of the frame flag byte (`(self.reliability as u8) << 5`). -/
def Reliability.toNat : Reliability → Nat
  | .unreliable => 0
  | .unreliableSequenced => 1
  | .reliable => 2
  | .reliableOrdered => 3
  | .reliableSequenced => 4
  | .unreliableWithAckReceipt => 5
  | .reliableWithAckReceipt => 6
  | .reliableOrderedWithAckReceipt => 7

/-- Modelled from the spec: `Reliability::try_from` on the 3-bit field
(`flags >> 5`); values 0..7 name the eight variants, others are malformed. -/
def Reliability.fromBits : Nat → Option Reliability
  | 0 => some .unreliable
  | 1 => some .unreliableSequenced
  | 2 => some .reliable
  | 3 => some .reliableOrdered
  | 4 => some .reliableSequenced
  | 5 => some .unreliableWithAckReceipt
  | 6 => some .reliableWithAckReceipt
  | 7 => some .reliableOrderedWithAckReceipt
  | _ => none

/-- Modelled from the spec: `reliable_index` is present iff the variant is
reliable (spec section 3). -/
def Reliability.is_reliable : Reliability → Bool
  | .reliable => true
  | .reliableOrdered => true
  | .reliableSequenced => true
  | .reliableWithAckReceipt => true
  | .reliableOrderedWithAckReceipt => true
  | _ => false

/-- Modelled from the spec: `sequence_index` is present for the sequenced
variants (spec section 3). -/
def Reliability.is_sequenced : Reliability → Bool
  | .unreliableSequenced => true
  | .reliableSequenced => true
  | _ => false

/-- Modelled from the spec: `order_channel` and `order_index` are present for
ordered and sequenced variants (spec section 3); receive.rs notes that
sequenced implies ordered. -/
def Reliability.is_ordered : Reliability → Bool
  | .unreliableSequenced => true
  | .reliableOrdered => true
  | .reliableSequenced => true
  | .reliableOrderedWithAckReceipt => true
  | _ => false

/-- From src/core/src/raknet/frame.rs: the `Frame` struct. Index fields are
24-bit counters stored in 32-bit lanes; `body` is the raw byte payload. -/
structure Frame where
  reliability : Reliability
  reliable_index : Nat
  sequence_index : Nat
  is_compound : Bool
  compound_id : Nat
  compound_size : Nat
  compound_index : Nat
  order_index : Nat
  order_channel : Nat
  body : List Nat
deriving DecidableEq, Repr

/-- From src/core/src/raknet/frame.rs: the `FrameBatch` struct wrapping a
datagram sequence number and the contained frames. -/
structure FrameBatch where
  sequence_number : Nat
  frames : List Frame
deriving DecidableEq, Repr

/-- From src/util/src/bytes/read.rs: `read_u8` takes one byte. -/
def readU8 : List Nat → Option (Nat × List Nat)
  | [] => none
  | b :: r => some (b, r)

/-- From src/util/src/bytes/read.rs: `read_u16_be`, standard big endian. -/
def readU16be : List Nat → Option (Nat × List Nat)
  | b0 :: b1 :: r => some (b0 * 256 + b1, r)
  | _ => none

/-- From src/util/src/bytes/read.rs: `read_u32_be`, standard big endian. -/
def readU32be : List Nat → Option (Nat × List Nat)
  | b0 :: b1 :: b2 :: b3 :: r =>
      some (b0 * 16777216 + b1 * 65536 + b2 * 256 + b3, r)
  | _ => none

/-- From src/util/src/bytes/read.rs lines 92-99: `read_u24_le` builds
`u32::from_le_bytes([0, bytes[0], bytes[1], bytes[2]])`, placing the zero
byte in the least significant lane, so the result is
`256*b0 + 65536*b1 + 16777216*b2`. -/
def readU24le : List Nat → Option (Nat × List Nat)
  | b0 :: b1 :: b2 :: r => some (256 * b0 + 65536 * b1 + 16777216 * b2, r)
  | _ => none

/-- From src/util/src/bytes/read.rs lines 101-108: `read_u24_be` builds
`u32::from_be_bytes([bytes[0], bytes[1], bytes[2], 0])`, placing the zero
byte in the least significant lane, so the result is
`16777216*b0 + 65536*b1 + 256*b2`. -/
def readU24be : List Nat → Option (Nat × List Nat)
  | b0 :: b1 :: b2 :: r => some (16777216 * b0 + 65536 * b1 + 256 * b2, r)
  | _ => none

/-- From src/util/src/bytes/read.rs: `take_n`, errors when fewer than `n`
bytes remain. -/
def takeN (n : Nat) (l : List Nat) : Option (List Nat × List Nat) :=
  if n ≤ l.length then some (l.take n, l.drop n) else none

/-- Modelled from the spec: the `BinaryWrite` primitives of the util crate
are not under src/ (only read.rs is); `write_u16_be` emits the two big
endian bytes of a `u16` value. -/
def writeU16be (v : Nat) : List Nat := [v / 256 % 256, v % 256]

/-- Modelled from the spec: `write_u32_be` emits the four big endian bytes of
a `u32` value. -/
def writeU32be (v : Nat) : List Nat :=
  [v / 16777216 % 256, v / 65536 % 256, v / 256 % 256, v % 256]

/-- Modelled from the spec: `write_u64_be` emits the eight big endian bytes
of a `u64` value. -/
def writeU64be (v : Nat) : List Nat :=
  [v / 2 ^ 56 % 256, v / 2 ^ 48 % 256, v / 2 ^ 40 % 256, v / 2 ^ 32 % 256,
   v / 16777216 % 256, v / 65536 % 256, v / 256 % 256, v % 256]

/-- Modelled from the spec: `write_u24_le` takes a `u24` value (the callers
in frame.rs use `try_into`, which fails for values of 2 ^ 24 or more) and
emits its three little endian bytes, per the wire layout of spec section 6. -/
def writeU24le (v : Nat) : Option (List Nat) :=
  if v < 16777216 then some [v % 256, v / 256 % 256, v / 65536] else none

/-- From src/core/src/raknet/frame.rs lines 110-164: `Frame::deserialize`.
The flag byte holds the reliability in its top 3 bits and the compound bit
0x10; the 16-bit big endian length field counts bits and is divided by 8;
index fields are read with the (shifted) `read_u24_le` above. -/
def frameDeserialize (buf : List Nat) : Option (Frame × List Nat) := do
  let (flags, buf) ← readU8 buf
  let rel ← Reliability.fromBits (flags / 32 % 8)
  let isCompound := flags / 16 % 2 = 1
  let (bits, buf) ← readU16be buf
  let len := bits / 8
  let (reliableIndex, buf) ←
    if rel.is_reliable then readU24le buf else pure (0, buf)
  let (sequenceIndex, buf) ←
    if rel.is_sequenced then readU24le buf else pure (0, buf)
  let (orderIndex, orderChannel, buf) ←
    if rel.is_ordered then do
      let (oi, buf) ← readU24le buf
      let (oc, buf) ← readU8 buf
      pure (oi, oc, buf)
    else pure (0, 0, buf)
  let (compoundSize, compoundId, compoundIndex, buf) ←
    if isCompound then do
      let (cs, buf) ← readU32be buf
      let (cid, buf) ← readU16be buf
      let (ci, buf) ← readU32be buf
      pure (cs, cid, ci, buf)
    else pure (0, 0, 0, buf)
  let (body, buf) ← takeN len buf
  pure ({ reliability := rel, reliable_index := reliableIndex,
          sequence_index := sequenceIndex, is_compound := isCompound,
          compound_id := compoundId, compound_size := compoundSize,
          compound_index := compoundIndex, order_index := orderIndex,
          order_channel := orderChannel, body := body }, buf)

/-- From src/core/src/raknet/frame.rs lines 167-198: `Frame::serialize`.
The body length is cast to `u16` and multiplied by 8 in `u16` arithmetic;
index fields go through `try_into` to `u24` (hence the `Option`). -/
def frameSerialize (f : Frame) : Option (List Nat) := do
  let flags := f.reliability.toNat * 32 + (if f.is_compound then 16 else 0)
  let bits := f.body.length % 65536 * 8 % 65536
  let reliablePart ←
    if f.reliability.is_reliable then writeU24le f.reliable_index
    else pure []
  let sequencedPart ←
    if f.reliability.is_sequenced then writeU24le f.sequence_index
    else pure []
  let orderedPart ←
    if f.reliability.is_ordered then do
      let oi ← writeU24le f.order_index
      pure (oi ++ [f.order_channel % 256])
    else pure []
  let compoundPart :=
    if f.is_compound then
      writeU32be (f.compound_size % 4294967296)
        ++ writeU16be (f.compound_id % 65536)
        ++ writeU32be (f.compound_index % 4294967296)
    else []
  pure (flags :: writeU16be bits ++ reliablePart ++ sequencedPart
        ++ orderedPart ++ compoundPart ++ f.body)

/-- From src/core/src/raknet/frame.rs lines 42-44: the batch decoding loop
keeps reading frames until the reader is exhausted. Fuel bounds the loop by
the buffer length; each successful frame read consumes at least one byte, so
the fuel never runs out on inputs the Rust loop terminates on. -/
def parseFrames : Nat → List Nat → Option (List Frame)
  | _, [] => some []
  | 0, _ :: _ => none
  | fuel + 1, buf => do
    let (f, rest) ← frameDeserialize buf
    let fs ← parseFrames fuel rest
    pure (f :: fs)

/-- From src/core/src/raknet/frame.rs lines 32-48: `FrameBatch::deserialize`.
The first byte is only checked by a debug assertion (no release effect), the
sequence number is read with `read_u24_le`, then frames until end of input. -/
def batchDeserialize (buf : List Nat) : Option FrameBatch := do
  let (_, buf) ← readU8 buf
  let (seq, buf) ← readU24le buf
  let frames ← parseFrames buf.length buf
  pure { sequence_number := seq, frames := frames }

/-- From src/core/src/raknet/frame.rs lines 51-65: `FrameBatch::serialize`
writes the 0x80 flag byte, the 24-bit sequence number (via `try_into`), then
every frame. -/
def batchSerialize (b : FrameBatch) : Option (List Nat) := do
  let seqBytes ← writeU24le b.sequence_number
  let frameBytes ← b.frames.mapM frameSerialize
  pure (128 :: seqBytes ++ frameBytes.flatten)

/-- Modelled from the spec: an ACK record is either a single datagram
sequence number or an inclusive run `Range(first..last)` (spec section 3);
the `AckRecord` enum lives in the raknet crate ack module, not under src/.
The code in send.rs builds `Range(consecutive[0]..*id)` from the first and
last member of a run of consecutive confirmed numbers. -/
inductive AckRecord
  | single (n : Nat)
  | range (first last : Nat)
deriving DecidableEq, Repr

/-- Modelled from the spec: the set of sequence numbers an ACK record
acknowledges; a range covers its endpoints inclusively. -/
def AckRecord.containsSeq (n : Nat) : AckRecord → Bool
  | .single m => n = m
  | .range a b => a ≤ n && n ≤ b

/-- How many of the emitted records acknowledge the sequence number `n`. -/
def ackCount (n : Nat) (rs : List AckRecord) : Nat :=
  (rs.filter (AckRecord.containsSeq n)).length

/-- From src/core/src/raknet/send.rs line 189: `Vec::dedup` removes only
consecutive repeated elements (loop of the standard library function,
keeping the first element of each run of equals). -/
def dedupLoop (prev : Nat) : List Nat → List Nat
  | [] => []
  | b :: rest => if prev = b then dedupLoop prev rest else b :: dedupLoop b rest

/-- From src/core/src/raknet/send.rs line 189: adjacent deduplication of the
confirmed list, performed BEFORE the sort on line 190. -/
def dedupAdjacent : List Nat → List Nat
  | [] => []
  | a :: rest => a :: dedupLoop a rest

/-- From src/core/src/raknet/send.rs lines 192-206: the record building loop
of `flush_acknowledgements`. The loop walks the confirmed list with one
element of lookahead; `consecutive` collects a run in progress and only its
head (`consecutive[0]`) and emptiness are ever inspected. -/
def buildRecords : List Nat → List AckRecord → List Nat → List AckRecord
  | _, records, [] => records
  | consecutive, records, [id] =>
    if consecutive.isEmpty then records ++ [.single id]
    else records ++ [.range (consecutive.headD 0) id]
  | consecutive, records, id :: next :: rest =>
    if id + 1 = next then buildRecords (consecutive ++ [id]) records (next :: rest)
    else if consecutive.isEmpty then
      buildRecords [] (records ++ [.single id]) (next :: rest)
    else
      buildRecords [] (records ++ [.range (consecutive.headD 0) id]) (next :: rest)

/-- From src/core/src/raknet/send.rs lines 177-218:
`flush_acknowledgements` takes the accrued confirmed list, returns without
sending when it is empty, and otherwise runs `dedup` (adjacent only), then
`sort_unstable`, then the record building loop. `insertionSort` stands in
for `sort_unstable`: both return the ascending permutation of the input,
which is unique over Nat. -/
def flushAcknowledgements (confirmed : List Nat) : Option (List AckRecord) :=
  if confirmed.isEmpty then none
  else some (buildRecords [] []
    (List.insertionSort (fun a b => a ≤ b) (dedupAdjacent confirmed)))

/-- Specification-side run coalescing: emit the run from `first` to `last`
and continue; a one-element run becomes `Single`, a longer one `Range`. -/
def coalesceGo (first last : Nat) : List Nat → List AckRecord
  | [] => [if first = last then .single first else .range first last]
  | b :: rest =>
    if last + 1 = b then coalesceGo first b rest
    else (if first = last then AckRecord.single first
          else AckRecord.range first last) :: coalesceGo b b rest

/-- Specification-side coalescing of an ascending list into maximal runs. -/
def coalesce : List Nat → List AckRecord
  | [] => []
  | a :: rest => coalesceGo a a rest

/-- From src/core/src/raknet/receive.rs: the per-connection inbound state the
claims touch. `batch_number` is the field `RaknetUser::batch_number`, updated
by `fetch_max` with every received datagram sequence number; `acknowledged`
is the accrued list of datagram sequence numbers pending acknowledgement
(drained by `flush_acknowledgements`). The full `RaknetUser` struct is not
under src/, so the record keeps exactly the fields receive.rs uses here. -/
structure RecvState where
  batch_number : Nat
  acknowledged : List Nat
deriving DecidableEq, Repr

/-- Disposition of one frame in `RaknetUser::handle_frame`: dropped by the
stale-sequenced filter, or passed on to reassembly, ordering and delivery. -/
inductive FrameStep
  | droppedStale
  | accepted
deriving DecidableEq, Repr

/-- From src/core/src/raknet/receive.rs lines 73-118: the head of
`RaknetUser::handle_frame`. A sequenced frame is discarded when its
`sequence_index` is below `self.batch_number` (the datagram counter); a
reliable frame then pushes the enclosing datagram sequence number onto the
acknowledged list. Reassembly, ordering and delivery follow in the source
and do not touch these two fields. -/
def handleFrame (s : RecvState) (batchSeq : Nat) (f : Frame) :
    RecvState × FrameStep :=
  if f.reliability.is_sequenced = true ∧ f.sequence_index < s.batch_number then
    (s, .droppedStale)
  else
    let s1 :=
      if f.reliability.is_reliable then
        { s with acknowledged := s.acknowledged ++ [batchSeq] }
      else s
    (s1, .accepted)

/-- From src/core/src/raknet/receive.rs lines 60-71:
`RaknetUser::handle_frame_batch` raises `batch_number` to the incoming
datagram sequence number with `fetch_max` and then handles every contained
frame against the updated state. -/
def handleFrameBatch (s : RecvState) (seq : Nat) (frames : List Frame) :
    RecvState × List FrameStep :=
  let s0 : RecvState := { s with batch_number := max s.batch_number seq }
  frames.foldl
    (fun acc f =>
      let r := handleFrame acc.1 seq f
      (r.1, acc.2 ++ [r.2]))
    (s0, [])

/-- From src/core/src/raknet/session.rs: the outbound counters of
`RakNetSession` used by the send pipeline: the per-channel order index
(`order_channels[ch].fetch_index()`), the connection-global sequence index
and the connection-global reliable index (`ack_index`). Each `fetch_add`
returns the old value and increments. -/
structure SendState where
  orderIndex : Nat → Nat
  sequenceIndex : Nat
  ackIndex : Nat

/-- From src/core/src/raknet/send.rs lines 250-267: the index assignment
performed on every frame of the flush loop in `send_raw_frames`: ordered
frames draw a fresh per-channel order index, sequenced frames a fresh
global sequence index, reliable frames a fresh global reliable index. -/
def assignIndices (st : SendState) (f : Frame) : SendState × Frame :=
  let p1 : SendState × Frame :=
    if f.reliability.is_ordered then
      ({ st with orderIndex := fun ch =>
          if ch = f.order_channel then st.orderIndex ch + 1
          else st.orderIndex ch },
       { f with order_index := st.orderIndex f.order_channel })
    else (st, f)
  let p2 : SendState × Frame :=
    if f.reliability.is_sequenced then
      ({ p1.1 with sequenceIndex := p1.1.sequenceIndex + 1 },
       { p1.2 with sequence_index := p1.1.sequenceIndex })
    else p1
  if f.reliability.is_reliable then
    ({ p2.1 with ackIndex := p2.1.ackIndex + 1 },
     { p2.2 with reliable_index := p2.1.ackIndex })
  else p2

/-- From src/core/src/raknet/send.rs lines 247-267: the flush loop of
`send_raw_frames` restricted to its index assignment effect; it visits the
frames in order threading the session counters. The batching decisions that
follow in the source do not change any frame field. -/
def processFrames (st : SendState) : List Frame → SendState × List Frame
  | [] => (st, [])
  | f :: fs =>
    let r1 := assignIndices st f
    let r2 := processFrames r1.1 fs
    (r2.1, r1.2 :: r2.2)

/-- From src/core/src/raknet/send.rs line 333: `slice::chunks` splits the
body into pieces of `chunkMax` bytes, the last piece possibly shorter. Fuel
bounds the recursion by the list length, which suffices when `chunkMax` is
positive (Rust `chunks` panics on a zero chunk size). -/
def chunksGo (chunkMax : Nat) : Nat → List Nat → List (List Nat)
  | _, [] => []
  | 0, _ :: _ => []
  | fuel + 1, a :: l => (a :: l).take chunkMax :: chunksGo chunkMax fuel ((a :: l).drop chunkMax)

/-- Body splitting with enough fuel for the whole list. -/
def chunks (chunkMax : Nat) (l : List Nat) : List (List Nat) :=
  chunksGo chunkMax l.length l

/-- From src/core/src/raknet/send.rs lines 339-351: the fragment building
loop of `split_frame`. Every fragment copies the reliability and the
compound metadata and leaves every other field at `..Default::default()`,
so in particular `order_channel` and `order_index` reset to 0. -/
def makeFragments (rel : Reliability) (cid size : Nat) :
    Nat → List (List Nat) → List Frame
  | _, [] => []
  | i, c :: cs =>
    { reliability := rel, reliable_index := 0, sequence_index := 0,
      is_compound := true, compound_id := cid, compound_size := size,
      compound_index := i, order_index := 0, order_channel := 0,
      body := c } :: makeFragments rel cid size (i + 1) cs

/-- From src/core/src/raknet/send.rs lines 319-354:
`RakNetSession::split_frame`. `szFrame` and `szBatch` stand for the layout
constants `size_of::<Frame>()` and `size_of::<FrameBatch>()` (compile-time
Rust values, abstracted as parameters); the chunk size is
`mtu - szFrame - szBatch`, the stored `compound_size` is the ceiling of
`(body.len() + szFrame) / chunk size` (computed from the padded frame size,
not from the number of chunks actually produced), and the fragments carry
consecutive `compound_index` values starting at 0. -/
def splitFrame (szFrame szBatch mtu cid : Nat) (f : Frame) : List Frame :=
  let chunkMax := mtu - szFrame - szBatch
  let size := (f.body.length + szFrame + chunkMax - 1) / chunkMax
  makeFragments f.reliability cid size 0 (chunks chunkMax f.body)

/-- From src/core/src/raknet/send.rs lines 220-236 and 319-354: when a frame
larger than the MTU is flushed, `send_raw_frames` calls `split_frame` and
recursively sends the fragments, which (each being at most
`mtu - szBatch` bytes) pass straight into the index assignment loop of the
recursive call. The result is the fragment list as emitted on the wire. -/
def emitFragments (szFrame szBatch mtu : Nat) (st : SendState) (cid : Nat)
    (f : Frame) : List Frame :=
  (processFrames st (splitFrame szFrame szBatch mtu cid f)).2

/-- Modelled from the spec: the 16-byte offline message magic
(spec section 6); the `OFFLINE_MESSAGE_DATA` constant lives in a raknet
module not under src/. -/
def offlineMagic : List Nat :=
  [0x00, 0xFF, 0xFF, 0x00, 0xFE, 0xFE, 0xFE, 0xFE,
   0xFD, 0xFD, 0xFD, 0xFD, 0x12, 0x34, 0x56, 0x78]

/-- Modelled from the spec: the implemented RakNet protocol version is 11
(spec section 6); the constant `RAKNET_VERSION` is declared in the proto
crate, which is not under src/. -/
def RAKNET_VERSION : Nat := 11

/-- From src/core/src/raknet/packets/open_connection_request1.rs: the parsed
request; `mtu` is computed from the request length, `protocol_version` read
from byte 17. -/
structure OpenConnectionRequest1 where
  protocol_version : Nat
  mtu : Nat
deriving DecidableEq, Repr

/-- From src/core/src/raknet/packets/open_connection_request1.rs lines
25-39: `OpenConnectionRequest1::deserialize`. The MTU is
`reader.remaining() as u16 + 28` taken BEFORE any byte is consumed, so it is
the whole datagram length plus 28 (in u16 arithmetic). `pyassert!` fails
unless the first byte is the packet ID 0x05. The result of `advance(16)`
(skipping the magic) is discarded in the source, so a short buffer leaves
the cursor in place. -/
def ocr1Deserialize (buf : List Nat) : Option OpenConnectionRequest1 := do
  let mtu := (buf.length % 65536 + 28) % 65536
  let (b, rest) ← readU8 buf
  if b = 5 then
    let rest1 := if rest.length < 16 then rest else rest.drop 16
    let (pv, _) ← readU8 rest1
    pure { protocol_version := pv, mtu := mtu }
  else none

/-- From src/core/src/raknet/packets/open_connection_reply1.rs lines 29-42:
`OpenConnectionReply1::serialize` writes the ID 0x06, the offline magic, the
server GUID big endian, a zero security byte, and the MTU big endian. -/
def reply1Serialize (serverGuid mtu : Nat) : List Nat :=
  6 :: offlineMagic ++ writeU64be serverGuid ++ [0] ++ writeU16be mtu

/-- Modelled from the spec: `IncompatibleProtocol` serializes as
`0x19 || magic || server_guid` (spec section 8, scenario 3); the packet type
is declared in the proto crate, not under src/. -/
def incompatibleProtocolSerialize (serverGuid : Nat) : List Nat :=
  25 :: offlineMagic ++ writeU64be serverGuid

/-- From src/core/src/instance.rs lines 451-473:
`Instance::process_open_connection_request1` deserializes the request and
answers `IncompatibleProtocol` on a version mismatch, otherwise
`OpenConnectionReply1` with the server GUID and the MTU from the request. -/
def processOCR1 (serverGuid : Nat) (buf : List Nat) : Option (List Nat) :=
  match ocr1Deserialize buf with
  | none => none
  | some req =>
    some (if req.protocol_version ≠ RAKNET_VERSION then
            incompatibleProtocolSerialize serverGuid
          else reply1Serialize serverGuid req.mtu)

/-- From src/core/src/network/packets/login/login.rs: `Login::ID = 0x01`. -/
def loginID : Nat := 0x01

/-- Modelled from the spec: `RequestNetworkSettings::ID` (0xc1), the initial
value of the expected-packet tag (spec section 4.6); the packet type is
declared in the proto crate, not under src/. -/
def requestNetworkSettingsID : Nat := 0xc1

/-- From src/core/src/network/packets/login/server_to_client_handshake.rs
and the spec handshake table: `ClientToServerHandshake::ID = 0x04`. -/
def clientToServerHandshakeID : Nat := 0x04

/-- From src/protocol/src/bedrock/cache/support.rs: `CacheStatus::ID`. -/
def cacheStatusID : Nat := 0x81

/-- From src/protocol/src/bedrock/login/resource_pack_client_response.rs:
`ResourcePackClientResponse::ID`. -/
def resourcePackClientResponseID : Nat := 0x08

/-- From src/core/src/network/packets/violation_warning.rs:
`ViolationWarning::ID`. -/
def violationWarningID : Nat := 0x9c

/-- The handler a game packet is dispatched to by
`BedrockUserLayer::handle_frame_body` (src/core/src/raknet/receive.rs lines
189-219); only the arms the claims touch are named, the remaining gameplay
arms are collapsed into `otherGameplay`. -/
inductive GameHandler
  | networkSettingsRequest
  | login
  | clientToServerHandshake
  | cacheStatus
  | resourcePackClientResponse
  | violationWarning
  | otherGameplay (id : Nat)
deriving DecidableEq, Repr

/-- Outcome of dispatching one inbound game packet. -/
inductive Dispatch
  | run (h : GameHandler)
  | invalidGamePacket (id : Nat)
deriving DecidableEq, Repr

/-- From src/core/src/raknet/receive.rs lines 175-220:
`BedrockUserLayer::handle_frame_body` reads the record length and header and
matches on `header.id` alone. The function receives the current `expected`
tag of the session as an argument to make explicit that the source never
consults it: no arm compares `header.id` against `expected` and no
violation path exists before a handler runs. The recognized gameplay ids
(Interact, TextMessage, MovePlayer and the rest) all dispatch to their
handlers the same way; unknown ids produce the bail error of line 218. -/
def handleGamePacket (expected : Nat) (id : Nat) : Dispatch :=
  if id = requestNetworkSettingsID then .run .networkSettingsRequest
  else if id = loginID then .run .login
  else if id = clientToServerHandshakeID then .run .clientToServerHandshake
  else if id = cacheStatusID then .run .cacheStatus
  else if id = resourcePackClientResponseID then .run .resourcePackClientResponse
  else if id = violationWarningID then .run .violationWarning
  else if id = 0x45 ∨ id = 0x21 ∨ id = 0x09 ∨ id = 0x71 ∨ id = 0x13 ∨
          id = 0x24 ∨ id = 0xb8 ∨ id = 0x2c ∨ id = 0x4d ∨ id = 0x5d ∨
          id = 0x8c ∨ id = 0x2f ∨ id = 0x65 ∨ id = 0x17 then
    .run (.otherGameplay id)
  else .invalidGamePacket id

/-- Modelled from the spec: the error classes of identity chain validation
(spec section 7, Unauthenticated). `notAuthenticated` is the length-1
rejection of src/protocol/src/crypto/login.rs lines 254-258,
`invalidChainLength` the default arm of lines 275-278, `notSignedByMojang`
the Mojang key mismatch of lines 267-270, `tokenInvalid` any propagated
JWT verification failure. -/
inductive IdentityError
  | notAuthenticated
  | invalidChainLength (n : Nat)
  | notSignedByMojang
  | tokenInvalid
deriving DecidableEq, Repr

/-- From src/protocol/src/crypto/login.rs lines 79-84: the payload of the
third identity token: the extra data and the client session public key. -/
structure IdentityTokenPayload where
  public_key : String
  xuid : String
  display_name : String
deriving DecidableEq, Repr

/-- The ES384 token verification primitives of
src/protocol/src/crypto/login.rs (`parse_initial_token`,
`parse_mojang_token`, `parse_identity_token`). Their bodies call into the
jsonwebtoken and p384 crates, so they enter the embedding as abstract
functions; `parse_identity_data` below uses them exactly as the source
does. -/
structure TokenVerifiers where
  parseInitialToken : String → Except IdentityError String
  parseMojangToken : String → String → Except IdentityError String
  parseIdentityToken : String → String → Except IdentityError IdentityTokenPayload

/-- From src/protocol/src/crypto/login.rs line 15: the well-known Mojang
public key the second chain link must carry. -/
def MOJANG_PUBLIC_KEY : String :=
  "MHYwEAYHKoZIzj0CAQYFK4EEACIDYgAECRXueJeTDqNRRgJi/vlRufByu/2G0i2Ebt6YMar5QX/R0DIIyrJMcUpruK4QveTfJSTp3Shlq4Gk34cD/4GUWwkv0DVuzeuB+tXija7HBxii03NHDbPAD0AKnLr2wdAp"

/-- From src/protocol/src/crypto/login.rs lines 248-282:
`parse_identity_data` matches on the chain length: a one-token chain is
rejected as not authenticated, exactly three tokens enter the verification
path (the source uppercases the third token in place before verifying),
and any other length is an error carrying that length. Verification
succeeds only when every link verifies and the first link yields the Mojang
key. -/
def parse_identity_data (v : TokenVerifiers) (chain : List String) :
    Except IdentityError IdentityTokenPayload :=
  match chain.length with
  | 1 => .error .notAuthenticated
  | 3 => do
    let t0 := chain.getD 0 ""
    let t1 := chain.getD 1 ""
    let t2 := (chain.getD 2 "").toUpper
    let key ← v.parseInitialToken t0
    if key ≠ MOJANG_PUBLIC_KEY then .error .notSignedByMojang
    else do
      let key2 ← v.parseMojangToken t1 key
      v.parseIdentityToken t2 key2
  | n => .error (.invalidChainLength n)

/-- Observable actions of `BedrockUser::handle_login`
(src/core/src/net/login.rs lines 269-308). `kick` is not under src/;
modelled from the spec it sends a disconnect message and closes the
connection, so it appears as the two actions `sendDisconnect` and
`closeConnection`. -/
inductive SessionAction
  | storeExpected (id : Nat)
  | validateIdentity
  | sendDisconnect (msg : String)
  | closeConnection
  | saveSession
  | sendServerToClientHandshake
  | installEncryptor
deriving DecidableEq, Repr

/-- From src/pyro/src/network/packets/login/disconnect.rs and the spec:
the localized failed-login disconnect message. -/
def DISCONNECTED_LOGIN_FAILED : String := "disconnect.loginFailed"

/-- From src/core/src/net/login.rs lines 269-308: `handle_login` first
stores `expected := ClientToServerHandshake::ID`, then runs
`Login::deserialize` (whose identity-chain part is `parse_identity_data`);
on a deserialization error it kicks with `DISCONNECTED_LOGIN_FAILED` and
returns the error, on success it persists the session, flushes, sends the
handshake and installs the encryptor. -/
def handleLoginActions (parseResult : Except IdentityError IdentityTokenPayload) :
    List SessionAction :=
  [.storeExpected clientToServerHandshakeID, .validateIdentity] ++
  match parseResult with
  | .error _ => [.sendDisconnect DISCONNECTED_LOGIN_FAILED, .closeConnection]
  | .ok _ => [.saveSession, .sendServerToClientHandshake, .installEncryptor]

/-- The login handler applied to a raw identity chain: `Login::deserialize`
validates the chain with `parse_identity_data` and `handle_login` reacts to
the outcome. -/
def handleLoginWith (v : TokenVerifiers) (chain : List String) :
    List SessionAction :=
  handleLoginActions (parse_identity_data v chain)

/-- Outcome of `RaknetUser::handle_frame_body`
(src/core/src/raknet/receive.rs lines 121-136) on one frame body. -/
inductive BodyOutcome
  | panicked (msg : String)
  | forwardGamePacket
  | disconnect
  | connectionRequest
  | newIncomingConnection
  | connectedPing
  | invalidRaknetId (id : Nat)
deriving DecidableEq, Repr

/-- From src/core/src/raknet/receive.rs lines 121-136:
`RaknetUser::handle_frame_body` selects on the first body byte
(`packet.first().expect("Game packet buffer was empty")`): 0xfe forwards the
game packet, 0x15 disconnects, 0x09 answers the connection request, 0x13
acknowledges, 0x00 pongs, anything else is a bail error. On an EMPTY body
the `expect` call panics. -/
def handleFrameBody (body : List Nat) : BodyOutcome :=
  match body.head? with
  | none => .panicked "Game packet buffer was empty"
  | some id =>
    if id = 0xfe then .forwardGamePacket
    else if id = 0x15 then .disconnect
    else if id = 0x09 then .connectionRequest
    else if id = 0x13 then .newIncomingConnection
    else if id = 0x00 then .connectedPing
    else .invalidRaknetId id

/-- From src/core/src/raknet/receive.rs lines 23-38:
`RaknetUser::handle_raw_packet` bails with an error (no panic) on an empty
datagram, then dispatches on the first byte. -/
def handleRawPacketEmptyCheck (packet : List Nat) : Except String Unit :=
  if packet.isEmpty then .error "Packet is empty" else .ok ()

/-- An UnreliableSequenced frame with the lowest possible sequence index,
arriving before any other sequenced traffic. -/
def seqFrame0 : Frame :=
  { reliability := .unreliableSequenced, reliable_index := 0,
    sequence_index := 0, is_compound := false, compound_id := 0,
    compound_size := 0, compound_index := 0, order_index := 0,
    order_channel := 0, body := [0xfe] }

/-- A minimal reliable (non-sequenced, non-ordered) frame. -/
def relFrame0 : Frame :=
  { reliability := .reliable, reliable_index := 0, sequence_index := 0,
    is_compound := false, compound_id := 0, compound_size := 0,
    compound_index := 0, order_index := 0, order_channel := 0,
    body := [0xfe] }

/-- C6: the claim predicts `read_u24_le` of bytes b0 b1 b2 returns
`b0 + 256*b1 + 65536*b2` and `read_u24_be` returns
`65536*b0 + 256*b1 + b2`, both below 2 ^ 24. The code places the zero byte
of the 32-bit lane at the least significant end, so both reads return 256
times the claimed value: on bytes [1, 0, 0] the little endian read returns
256 instead of 1, on [0, 0, 1] the big endian read returns 256 instead of 1,
and the little endian read of [0, 0, 1] returns 2 ^ 24, violating the
claimed bound. -/
theorem c6_read_u24_shifted :
    readU24le [1, 0, 0] = some (256, [])
    ∧ readU24be [0, 0, 1] = some (256, [])
    ∧ readU24le [0, 0, 1] = some (16777216, [])
    ∧ ¬ 16777216 < 16777216 := by
  refine ⟨rfl, rfl, rfl, by omega⟩

/-- C7: the claim predicts `decode(encode(batch)) = batch` for well-formed
batches. Already the empty batch with sequence number 1 (well within 24
bits) fails: the shifted `read_u24_le` turns the encoded sequence number 1
into 256 on decode. -/
theorem c7_roundtrip_broken :
    batchSerialize { sequence_number := 1, frames := [] } =
      some [128, 1, 0, 0]
    ∧ batchDeserialize [128, 1, 0, 0] =
      some { sequence_number := 256, frames := [] }
    ∧ ({ sequence_number := 256, frames := [] } : FrameBatch) ≠
      { sequence_number := 1, frames := [] } := by
  refine ⟨rfl, rfl, by decide⟩

/-- C10: the claim predicts that processing a frame with an empty body never
panics. The wire bytes 0x80 00 00 00 | 0x00 0x00 0x00 are a valid connected
datagram holding one unreliable frame whose declared bit length is 0, so an
attacker can deliver an empty frame body; `RaknetUser::handle_frame_body`
then evaluates `packet.first().expect(..)` and panics. The empty-datagram
check of `handle_raw_packet`, by contrast, is a proper error. -/
theorem c10_empty_body_panics :
    batchDeserialize [128, 0, 0, 0, 0, 0, 0] =
      some { sequence_number := 0,
             frames := [{ reliability := .unreliable, reliable_index := 0,
                          sequence_index := 0, is_compound := false,
                          compound_id := 0, compound_size := 0,
                          compound_index := 0, order_index := 0,
                          order_channel := 0, body := [] }] }
    ∧ handleFrameBody [] = .panicked "Game packet buffer was empty"
    ∧ handleRawPacketEmptyCheck [] = .error "Packet is empty" := by
  refine ⟨rfl, rfl, rfl⟩

/-- C3: the claim predicts a sequenced frame is dropped iff its
`sequence_index` is below the latest sequence index seen. The code instead
compares against `batch_number`, the highest datagram sequence number
received (raised by `fetch_max` before the comparison). On a fresh
connection, a datagram with sequence number 5 whose sequenced frame carries
the brand new sequence index 0 is dropped, although no sequence index had
been seen at all. -/
theorem c3_fresh_sequenced_frame_dropped :
    (handleFrameBatch { batch_number := 0, acknowledged := [] } 5
      [seqFrame0]).2 = [.droppedStale]
    ∧ (handleFrameBatch { batch_number := 0, acknowledged := [] } 5
      [seqFrame0]).1.batch_number = 5 := by
  refine ⟨rfl, rfl⟩

/-- C4: the claim predicts every recorded datagram sequence number appears
exactly once in the next ACK record list, in any arrival order including
interleaved repeats. Receiving reliable frames in datagrams 3, 4 and 3
again accrues the list [3, 4, 3]; `flush_acknowledgements` runs `dedup`
BEFORE `sort_unstable`, so the non-adjacent repeat survives and the emitted
records [Single(3), Range(3..4)] acknowledge 3 twice. -/
theorem c4_interleaved_repeat_acked_twice :
    (let s1 := (handleFrameBatch { batch_number := 0, acknowledged := [] } 3
                  [relFrame0]).1
     let s2 := (handleFrameBatch s1 4 [relFrame0]).1
     let s3 := (handleFrameBatch s2 3 [relFrame0]).1
     s3.acknowledged) = [3, 4, 3]
    ∧ flushAcknowledgements [3, 4, 3] =
        some [.single 3, .range 3 4]
    ∧ ackCount 3 [.single 3, .range 3 4] = 2 := by
  refine ⟨rfl, by decide, rfl⟩

/-- C2: the claim predicts an inbound game packet whose ID differs from the
current `expected` tag aborts the connection before its handler runs, and in
particular that a Login while `expected = RequestNetworkSettings::ID` is
kicked without identity validation. The dispatcher runs the login handler
for a Login packet even while `expected` is `RequestNetworkSettings::ID`;
its result never depends on the expected tag at all (the tag is stored by
the handlers but never read); and the login handler performs identity
validation on every invocation, kicking only when that validation itself
fails. -/
theorem c2_expected_tag_not_enforced :
    handleGamePacket requestNetworkSettingsID loginID = .run .login
    ∧ (∀ e₁ e₂ id, handleGamePacket e₁ id = handleGamePacket e₂ id)
    ∧ (∀ r, SessionAction.validateIdentity ∈ handleLoginActions r)
    ∧ (∀ r, handleLoginActions r ≠ []) := by
  refine ⟨rfl, fun e₁ e₂ id => rfl, fun r => ?_, fun r => ?_⟩
  · cases r <;> simp [handleLoginActions]
  · cases r <;> simp [handleLoginActions]

/-- Adjacent dedup leaves a duplicate-free list unchanged (helper). -/
theorem dedupLoop_of_nodup :
    ∀ (l : List Nat) (prev : Nat), l.Nodup → prev ∉ l → dedupLoop prev l = l
  | [], _, _, _ => rfl
  | b :: rest, prev, hnd, hmem => by
    have hpb : prev ≠ b := fun h => hmem (h ▸ List.mem_cons_self b rest)
    have hparts := List.nodup_cons.mp hnd
    simp only [dedupLoop, if_neg hpb]
    rw [dedupLoop_of_nodup rest b hparts.2 hparts.1]

/-- `Vec::dedup` before the sort is the identity on duplicate-free input. -/
theorem dedupAdjacent_of_nodup (l : List Nat) (h : l.Nodup) :
    dedupAdjacent l = l := by
  cases l with
  | nil => rfl
  | cons a rest =>
    have hparts := List.nodup_cons.mp h
    simp only [dedupAdjacent]
    rw [dedupLoop_of_nodup rest a hparts.2 hparts.1]

/-- On a strictly ascending list the record building loop of
`flush_acknowledgements` produces exactly the run coalescing: with no run
pending it appends `coalesceGo id id`, and with a pending run headed by
`f < id` it appends `coalesceGo f id` (helper). -/
theorem buildRecords_strictSorted :
    ∀ (l : List Nat) (id : Nat) (r : List AckRecord),
      List.Pairwise (· < ·) (id :: l) →
      buildRecords [] r (id :: l) = r ++ coalesceGo id id l
      ∧ ∀ f cs, f < id →
          buildRecords (f :: cs) r (id :: l) = r ++ coalesceGo f id l
  | [], id, r, _ => by
    constructor
    · simp [buildRecords, coalesceGo]
    · intro f cs hf
      simp [buildRecords, coalesceGo, Nat.ne_of_lt hf]
  | next :: rest, id, r, hpw => by
    have hlt : id < next := (List.pairwise_cons.mp hpw).1 next
      (List.mem_cons_self next rest)
    have hpw2 : List.Pairwise (· < ·) (next :: rest) :=
      (List.pairwise_cons.mp hpw).2
    have ih := buildRecords_strictSorted rest next r hpw2
    by_cases hcons : id + 1 = next
    · constructor
      · simp only [buildRecords, if_pos hcons, List.nil_append]
        rw [(ih.2) id [] hlt]
        simp [coalesceGo, if_pos hcons]
      · intro f cs hf
        simp only [buildRecords, if_pos hcons, List.cons_append]
        rw [(ih.2) f (cs ++ [id]) (hf.trans hlt)]
        simp [coalesceGo, if_pos hcons]
    · constructor
      · have ih1 := buildRecords_strictSorted rest next (r ++ [.single id]) hpw2
        simp only [buildRecords, if_neg hcons, List.isEmpty_nil, if_pos rfl]
        rw [ih1.1]
        simp [coalesceGo, if_neg hcons, List.append_assoc]
      · intro f cs hf
        have ih1 := buildRecords_strictSorted rest next (r ++ [.range f id]) hpw2
        simp only [buildRecords, if_neg hcons, List.isEmpty_cons,
          Bool.false_eq_true, if_false, List.headD_cons]
        rw [ih1.1]
        simp [coalesceGo, if_neg hcons, Nat.ne_of_lt hf, List.append_assoc]

/-- C5: flushing the pending-ACK set (a duplicate-free confirmed list, in
any arrival order) emits exactly the ascending run coalescing of the sorted
list: runs of consecutive numbers become `Range` records and isolated
numbers become `Single` records; in particular the confirmed set
3, 4, 5, 7, 9, 10 yields [Range(3..5), Single(7), Range(9..10)]. -/
theorem c5_flush_coalesces :
    (∀ l : List Nat, l.Nodup → l ≠ [] →
      flushAcknowledgements l =
        some (coalesce (List.insertionSort (fun a b => a ≤ b) l)))
    ∧ flushAcknowledgements [3, 4, 5, 7, 9, 10] =
        some [.range 3 5, .single 7, .range 9 10] := by
  constructor
  · intro l hnd hne
    have hne2 : l.isEmpty = false := by
      cases l with
      | nil => exact absurd rfl hne
      | cons a t => rfl
    unfold flushAcknowledgements
    rw [hne2, dedupAdjacent_of_nodup l hnd]
    simp only [Bool.false_eq_true, if_false]
    have hperm := List.perm_insertionSort (fun a b => a ≤ b) l
    have hsorted : List.Sorted (· ≤ ·)
        (List.insertionSort (fun a b => a ≤ b) l) :=
      List.sorted_insertionSort (fun a b => a ≤ b) l
    have hnd2 : (List.insertionSort (fun a b => a ≤ b) l).Nodup :=
      hperm.nodup_iff.mpr hnd
    have hstrict : List.Sorted (· < ·)
        (List.insertionSort (fun a b => a ≤ b) l) :=
      hsorted.lt_of_le hnd2
    cases hm : List.insertionSort (fun a b => a ≤ b) l with
    | nil =>
      rw [hm] at hperm
      exact absurd (List.Perm.eq_nil hperm.symm) hne
    | cons id tl =>
      rw [hm] at hstrict
      have := (buildRecords_strictSorted tl id [] hstrict).1
      rw [this]
      simp [coalesce]
  · decide

/-- C5 witness: the coalescing theorem instantiated at the confirmed set of
the specification scenario. -/
theorem c5_flush_coalesces_witness :
    flushAcknowledgements [3, 4, 5, 7, 9, 10] =
      some (coalesce (List.insertionSort (fun a b => a ≤ b)
        [3, 4, 5, 7, 9, 10])) :=
  c5_flush_coalesces.1 [3, 4, 5, 7, 9, 10] (by decide) (by decide)

/-- C8 (amended): for every OpenConnectionRequest1 datagram of the shape
`0x05 || 16 magic bytes || protocol 11 || padding`, the server replies
OpenConnectionReply1 carrying the server GUID, a security byte of 0, and an
MTU equal to the length of the received request plus 28. (The reply shape
`0x06 || magic || guid || 0 || mtu` is fixed by `reply1Serialize`.) The
spec scenario value 1478 is inconsistent with this rule: its request is
1468 bytes long, so the MTU is 1496. -/
theorem c8_reply1_mtu (guid : Nat) (mid pad : List Nat)
    (hmid : mid.length = 16) (hsz : 18 + pad.length + 28 < 65536) :
    processOCR1 guid (5 :: mid ++ RAKNET_VERSION :: pad) =
      some (reply1Serialize guid
        ((5 :: mid ++ RAKNET_VERSION :: pad).length + 28)) := by
  have hlen : (5 :: mid ++ RAKNET_VERSION :: pad).length = 18 + pad.length := by
    simp only [List.length_cons, List.length_append, hmid]
    omega
  have hdrop : (mid ++ RAKNET_VERSION :: pad).drop 16 = RAKNET_VERSION :: pad := by
    rw [← hmid, List.drop_left]
  have h16 : ¬ mid.length + (pad.length + 1) < 16 := by omega
  have hmod : (mid.length + (pad.length + 1) + 1) % 65536 =
      mid.length + (pad.length + 1) + 1 := Nat.mod_eq_of_lt (by omega)
  have hmod2 : (mid.length + (pad.length + 1) + 1 + 28) % 65536 =
      mid.length + (pad.length + 1) + 1 + 28 := Nat.mod_eq_of_lt (by omega)
  have hdes : ocr1Deserialize (5 :: mid ++ RAKNET_VERSION :: pad) =
      some { protocol_version := RAKNET_VERSION,
             mtu := (5 :: mid ++ RAKNET_VERSION :: pad).length + 28 } := by
    simp [ocr1Deserialize, readU8, hdrop, h16, hmod, hmod2]
  simp only [processOCR1, hdes]
  simp

/-- C8 counterexample: the exact scenario request of the claim,
`0x05 || magic || protocol 11 || 1450 zero bytes` (total length 1468),
produces a reply with MTU 1496 = 1468 + 28, not the claimed 1478. -/
theorem c8_scenario_mtu_is_1496 :
    processOCR1 0 (5 :: offlineMagic ++ RAKNET_VERSION :: List.replicate 1450 0) =
      some (reply1Serialize 0 1496)
    ∧ reply1Serialize 0 1496 ≠ reply1Serialize 0 1478 := by
  constructor
  · decide
  · decide

/-- C8 witness: the amended MTU rule instantiated at the scenario request. -/
theorem c8_reply1_mtu_witness :
    processOCR1 0 (5 :: offlineMagic ++ RAKNET_VERSION :: List.replicate 1450 0) =
      some (reply1Serialize 0
        ((5 :: offlineMagic ++ RAKNET_VERSION :: List.replicate 1450 0).length
          + 28)) :=
  c8_reply1_mtu 0 offlineMagic (List.replicate 1450 0) (by decide)
    (by simp)

/-- A verifier stub whose every link fails; used to instantiate the chain
length dispatch at concrete inputs. -/
def trivialVerifiers : TokenVerifiers :=
  { parseInitialToken := fun _ => .error .tokenInvalid,
    parseMojangToken := fun _ _ => .error .tokenInvalid,
    parseIdentityToken := fun _ _ => .error .tokenInvalid }

/-- C9: identity chain validation can succeed only on a chain of exactly
three tokens, whatever the token verifiers decide; a one-token chain is
rejected as unauthenticated; every other length is an error carrying that
length; and a login whose chain validation fails performs the kick with the
localized disconnect.loginFailed message and closes the connection. -/
theorem c9_login_chain_validation :
    (∀ (v : TokenVerifiers) (chain : List String) (r : IdentityTokenPayload),
        parse_identity_data v chain = .ok r → chain.length = 3)
    ∧ (∀ (v : TokenVerifiers) (chain : List String), chain.length = 1 →
        parse_identity_data v chain = .error .notAuthenticated)
    ∧ (∀ (v : TokenVerifiers) (chain : List String),
        chain.length ≠ 1 → chain.length ≠ 3 →
        parse_identity_data v chain = .error (.invalidChainLength chain.length))
    ∧ (∀ (v : TokenVerifiers) (chain : List String), chain.length ≠ 3 →
        handleLoginWith v chain =
          [.storeExpected clientToServerHandshakeID, .validateIdentity,
           .sendDisconnect DISCONNECTED_LOGIN_FAILED, .closeConnection]) := by
  have aux2 : ∀ (v : TokenVerifiers) (chain : List String), chain.length = 1 →
      parse_identity_data v chain = .error .notAuthenticated := by
    intro v chain hl
    unfold parse_identity_data
    rw [hl]
  have aux3 : ∀ (v : TokenVerifiers) (chain : List String),
      chain.length ≠ 1 → chain.length ≠ 3 →
      parse_identity_data v chain = .error (.invalidChainLength chain.length) := by
    intro v chain h1 h3
    unfold parse_identity_data
    split
    · exact absurd (by assumption) h1
    · exact absurd (by assumption) h3
    · rfl
  refine ⟨?_, aux2, aux3, ?_⟩
  · intro v chain r h
    unfold parse_identity_data at h
    split at h
    · exact absurd h (by simp)
    · assumption
    · exact absurd h (by simp)
  · intro v chain h3
    unfold handleLoginWith
    by_cases h1 : chain.length = 1
    · rw [aux2 v chain h1]
      rfl
    · rw [aux3 v chain h1 h3]
      rfl

/-- C9 witness: a one-token chain is rejected as unauthenticated and the
failed login kicks with disconnect.loginFailed. -/
theorem c9_login_chain_validation_witness :
    parse_identity_data trivialVerifiers ["token"] = .error .notAuthenticated
    ∧ handleLoginWith trivialVerifiers ["token"] =
        [.storeExpected clientToServerHandshakeID, .validateIdentity,
         .sendDisconnect DISCONNECTED_LOGIN_FAILED, .closeConnection] :=
  ⟨c9_login_chain_validation.2.1 trivialVerifiers ["token"] rfl,
   c9_login_chain_validation.2.2.2 trivialVerifiers ["token"] (by decide)⟩

/-- Unfolding step of the flush loop (helper). -/
theorem processFrames_cons (st : SendState) (f : Frame) (fs : List Frame) :
    processFrames st (f :: fs) =
      ((processFrames (assignIndices st f).1 fs).1,
       (assignIndices st f).2 :: (processFrames (assignIndices st f).1 fs).2) :=
  rfl

/-- Index assignment on a reliable ordered frame of channel 0: the frame
receives the current channel-0 order index and the current reliable index,
and both counters advance (helper). -/
theorem assignIndices_reliableOrdered (st : SendState) (f : Frame)
    (hrel : f.reliability = .reliableOrdered) (hch : f.order_channel = 0) :
    assignIndices st f =
      ({ orderIndex := fun ch =>
           if ch = 0 then st.orderIndex ch + 1 else st.orderIndex ch,
         sequenceIndex := st.sequenceIndex,
         ackIndex := st.ackIndex + 1 },
       { f with order_index := st.orderIndex 0,
                reliable_index := st.ackIndex }) := by
  simp [assignIndices, hrel, hch, Reliability.is_ordered,
        Reliability.is_sequenced, Reliability.is_reliable]

/-- Splitting then flattening recovers the original body (helper). -/
theorem chunksGo_flatten (C : Nat) (hC : 0 < C) :
    ∀ (fuel : Nat) (l : List Nat), l.length ≤ fuel →
      (chunksGo C fuel l).flatten = l := by
  intro fuel
  induction fuel with
  | zero =>
    intro l hl
    have hnil : l = [] := List.eq_nil_of_length_eq_zero (Nat.le_zero.mp hl)
    subst hnil
    rfl
  | succ fuel ih =>
    intro l hl
    cases l with
    | nil => rfl
    | cons a t =>
      simp only [chunksGo, List.flatten_cons]
      rw [ih ((a :: t).drop C) (by simp only [List.length_drop]; omega)]
      exact List.take_append_drop C (a :: t)

/-- The number of chunks is the ceiling of the length divided by the chunk
size (helper). -/
theorem chunksGo_length (C : Nat) (hC : 0 < C) :
    ∀ (fuel : Nat) (l : List Nat), l.length ≤ fuel →
      (chunksGo C fuel l).length = (l.length + C - 1) / C := by
  intro fuel
  induction fuel with
  | zero =>
    intro l hl
    have hnil : l = [] := List.eq_nil_of_length_eq_zero (Nat.le_zero.mp hl)
    subst hnil
    simp only [chunksGo, List.length_nil]
    exact (Nat.div_eq_of_lt (by omega)).symm
  | succ fuel ih =>
    intro l hl
    cases l with
    | nil =>
      simp only [chunksGo, List.length_nil]
      exact (Nat.div_eq_of_lt (by omega)).symm
    | cons a t =>
      simp only [chunksGo, List.length_cons]
      rw [ih ((a :: t).drop C) (by simp only [List.length_drop]; omega)]
      simp only [List.length_drop, List.length_cons]
      rw [show t.length + 1 + C - 1 = (t.length + 1 - 1) + C by omega,
          Nat.add_div_right _ hC]
      by_cases hn : t.length + 1 ≤ C
      · rw [show t.length + 1 - C + C - 1 = C - 1 by omega,
            Nat.div_eq_of_lt (show C - 1 < C by omega),
            Nat.div_eq_of_lt (show t.length + 1 - 1 < C by omega)]
      · rw [show t.length + 1 - C + C - 1 = t.length + 1 - 1 by omega]

/-- The flush loop over the fragments of a reliable ordered compound: the
bodies are the chunks; the order indices and reliable indices are the
consecutive counter values starting at the current channel-0 order index
and the current reliable index; the compound metadata is shared; the order
channel of every fragment is the reset channel 0 (helper). -/
theorem processFragments_maps (cid size : Nat) :
    ∀ (cs : List (List Nat)) (i : Nat) (st : SendState),
      ((processFrames st (makeFragments .reliableOrdered cid size i cs)).2).map
          Frame.body = cs
      ∧ ((processFrames st (makeFragments .reliableOrdered cid size i cs)).2).map
          Frame.order_index = List.range' (st.orderIndex 0) cs.length
      ∧ ((processFrames st (makeFragments .reliableOrdered cid size i cs)).2).map
          Frame.reliable_index = List.range' st.ackIndex cs.length
      ∧ ((processFrames st (makeFragments .reliableOrdered cid size i cs)).2).map
          Frame.compound_index = List.range' i cs.length
      ∧ ((processFrames st (makeFragments .reliableOrdered cid size i cs)).2).map
          Frame.order_channel = List.replicate cs.length 0
      ∧ ((processFrames st (makeFragments .reliableOrdered cid size i cs)).2).map
          Frame.compound_id = List.replicate cs.length cid
      ∧ ((processFrames st (makeFragments .reliableOrdered cid size i cs)).2).map
          Frame.compound_size = List.replicate cs.length size
      ∧ ((processFrames st (makeFragments .reliableOrdered cid size i cs)).2).map
          Frame.is_compound = List.replicate cs.length true
      ∧ ((processFrames st (makeFragments .reliableOrdered cid size i cs)).2).map
          Frame.reliability = List.replicate cs.length Reliability.reliableOrdered
  | [], i, st => by
    simp [makeFragments, processFrames]
  | c :: cs, i, st => by
    have ih := processFragments_maps cid size cs (i + 1)
      ({ orderIndex := fun ch =>
           if ch = 0 then st.orderIndex ch + 1 else st.orderIndex ch,
         sequenceIndex := st.sequenceIndex,
         ackIndex := st.ackIndex + 1 })
    have ha := assignIndices_reliableOrdered st
      { reliability := .reliableOrdered, reliable_index := 0,
        sequence_index := 0, is_compound := true, compound_id := cid,
        compound_size := size, compound_index := i, order_index := 0,
        order_channel := 0, body := c } rfl rfl
    simp only [makeFragments, processFrames_cons, ha, List.map_cons,
      List.length_cons, List.range'_succ, List.replicate_succ]
    refine ⟨?_, ?_, ?_, ?_, ?_, ?_, ?_, ?_, ?_⟩ <;>
      simp [ih.1, ih.2.1, ih.2.2.1, ih.2.2.2.1, ih.2.2.2.2.1, ih.2.2.2.2.2.1,
            ih.2.2.2.2.2.2.1, ih.2.2.2.2.2.2.2.1, ih.2.2.2.2.2.2.2.2]

/-- C1 (amended): fragmenting an oversized reliable-ordered frame emits
fragments whose bodies are the chunks of the original body (their
concatenation is the body); all fragments carry `is_compound = true`, the
shared fresh `compound_id`, the identical stored
`compound_size = ceil((body.len + szFrame) / chunk)` (computed from the
padded frame size, which can exceed the number N of fragments actually
emitted), and `compound_index` 0..N-1; the original reliability is
preserved, but the order channel of every fragment resets to 0 and every
fragment draws its own fresh order index, so a reliable ordered fragmented
frame consumes N reliable indices AND N order indices (consecutive values
of the channel-0 and reliable counters). -/
theorem c1_split_fragment_fields (szF szB mtu cid : Nat) (st : SendState)
    (f : Frame) (hrel : f.reliability = .reliableOrdered)
    (hC : 0 < mtu - szF - szB) (hover : mtu < f.body.length + szF) :
    (emitFragments szF szB mtu st cid f).map Frame.body =
        chunks (mtu - szF - szB) f.body
    ∧ (chunks (mtu - szF - szB) f.body).flatten = f.body
    ∧ (emitFragments szF szB mtu st cid f).length =
        (f.body.length + (mtu - szF - szB) - 1) / (mtu - szF - szB)
    ∧ (emitFragments szF szB mtu st cid f).map Frame.is_compound =
        List.replicate
          ((f.body.length + (mtu - szF - szB) - 1) / (mtu - szF - szB)) true
    ∧ (emitFragments szF szB mtu st cid f).map Frame.compound_id =
        List.replicate
          ((f.body.length + (mtu - szF - szB) - 1) / (mtu - szF - szB)) cid
    ∧ (emitFragments szF szB mtu st cid f).map Frame.compound_size =
        List.replicate
          ((f.body.length + (mtu - szF - szB) - 1) / (mtu - szF - szB))
          ((f.body.length + szF + (mtu - szF - szB) - 1) / (mtu - szF - szB))
    ∧ (emitFragments szF szB mtu st cid f).map Frame.compound_index =
        List.range
          ((f.body.length + (mtu - szF - szB) - 1) / (mtu - szF - szB))
    ∧ (emitFragments szF szB mtu st cid f).map Frame.reliability =
        List.replicate
          ((f.body.length + (mtu - szF - szB) - 1) / (mtu - szF - szB))
          f.reliability
    ∧ (emitFragments szF szB mtu st cid f).map Frame.order_channel =
        List.replicate
          ((f.body.length + (mtu - szF - szB) - 1) / (mtu - szF - szB)) 0
    ∧ (emitFragments szF szB mtu st cid f).map Frame.order_index =
        List.range' (st.orderIndex 0)
          ((f.body.length + (mtu - szF - szB) - 1) / (mtu - szF - szB))
    ∧ (emitFragments szF szB mtu st cid f).map Frame.reliable_index =
        List.range' st.ackIndex
          ((f.body.length + (mtu - szF - szB) - 1) / (mtu - szF - szB)) := by
  have hsplit : splitFrame szF szB mtu cid f =
      makeFragments .reliableOrdered cid
        ((f.body.length + szF + (mtu - szF - szB) - 1) / (mtu - szF - szB)) 0
        (chunks (mtu - szF - szB) f.body) := by
    simp only [splitFrame, hrel]
  have hlen : (chunks (mtu - szF - szB) f.body).length =
      (f.body.length + (mtu - szF - szB) - 1) / (mtu - szF - szB) :=
    chunksGo_length (mtu - szF - szB) hC f.body.length f.body le_rfl
  have hflat : (chunks (mtu - szF - szB) f.body).flatten = f.body :=
    chunksGo_flatten (mtu - szF - szB) hC f.body.length f.body le_rfl
  obtain ⟨h1, h2, h3, h4, h5, h6, h7, h8, h9⟩ :=
    processFragments_maps cid
      ((f.body.length + szF + (mtu - szF - szB) - 1) / (mtu - szF - szB))
      (chunks (mtu - szF - szB) f.body) 0 st
  rw [hlen] at h2 h3 h4 h5 h6 h7 h8 h9
  unfold emitFragments
  rw [hsplit]
  have houtlen :
      (processFrames st (makeFragments .reliableOrdered cid
        ((f.body.length + szF + (mtu - szF - szB) - 1) / (mtu - szF - szB)) 0
        (chunks (mtu - szF - szB) f.body))).2.length =
      (f.body.length + (mtu - szF - szB) - 1) / (mtu - szF - szB) := by
    have hh := congrArg List.length h1
    rw [List.length_map] at hh
    rw [hh]
    exact hlen
  refine ⟨h1, hflat, houtlen, h8, h6, h7, ?_, ?_, h5, h2, h3⟩
  · rw [List.range_eq_range']
    exact h4
  · rw [hrel]
    exact h9

/-- A send pipeline state with all counters at zero. -/
def st0 : SendState :=
  { orderIndex := fun _ => 0, sequenceIndex := 0, ackIndex := 0 }

/-- A reliable ordered frame on order channel 2 with a 60-byte body; with
frame struct size 48, batch struct size 32 and MTU 100 the frame exceeds
the MTU and the chunk size is 20, so the pipeline fragments it. -/
def f0 : Frame :=
  { reliability := .reliableOrdered, reliable_index := 0, sequence_index := 0,
    is_compound := false, compound_id := 0, compound_size := 0,
    compound_index := 0, order_index := 0, order_channel := 2,
    body := List.replicate 60 7 }

/-- C1 counterexample: for the oversized reliable ordered frame `f0`
(channel 2, 60-byte body, MTU 100, struct sizes 48 and 32), the emitted
fragments carry DISTINCT order indices 0, 1, 2 drawn from channel 0 -- not
the preserved channel 2 of the original and not one shared order index --
and their stored compound_size is 6 although only N = 3 fragments exist
(the size is computed from the struct-padded frame size, tripping the
debug assertion of split_frame). This refutes the claimed preservation of
order_channel/order_index, the claimed compound_size = N, and the claimed
single order index per fragmented frame. -/
theorem c1_scenario_distinct_order_indices :
    (emitFragments 48 32 100 st0 0 f0).map Frame.order_index = [0, 1, 2]
    ∧ (emitFragments 48 32 100 st0 0 f0).map Frame.order_channel = [0, 0, 0]
    ∧ f0.order_channel = 2
    ∧ (emitFragments 48 32 100 st0 0 f0).map Frame.compound_size = [6, 6, 6]
    ∧ (emitFragments 48 32 100 st0 0 f0).length = 3
    ∧ 100 < f0.body.length + 48
    ∧ ¬ ∃ n, ∀ g ∈ emitFragments 48 32 100 st0 0 f0, g.order_index = n := by
  refine ⟨by decide, by decide, rfl, by decide, by decide, by decide, ?_⟩
  rintro ⟨n, hall⟩
  have hmem0 : (0 : Nat) ∈
      (emitFragments 48 32 100 st0 0 f0).map Frame.order_index := by decide
  have hmem1 : (1 : Nat) ∈
      (emitFragments 48 32 100 st0 0 f0).map Frame.order_index := by decide
  obtain ⟨g0, hg0, he0⟩ := List.mem_map.mp hmem0
  obtain ⟨g1, hg1, he1⟩ := List.mem_map.mp hmem1
  rw [hall g0 hg0] at he0
  rw [hall g1 hg1] at he1
  omega

/-- C1 witness: the amended fragmentation statement instantiated at the
concrete oversized frame `f0`. -/
theorem c1_split_fragment_fields_witness :
    (emitFragments 48 32 100 st0 0 f0).map Frame.body =
        chunks (100 - 48 - 32) f0.body
    ∧ (chunks (100 - 48 - 32) f0.body).flatten = f0.body
    ∧ (emitFragments 48 32 100 st0 0 f0).length =
        (f0.body.length + (100 - 48 - 32) - 1) / (100 - 48 - 32)
    ∧ (emitFragments 48 32 100 st0 0 f0).map Frame.is_compound =
        List.replicate
          ((f0.body.length + (100 - 48 - 32) - 1) / (100 - 48 - 32)) true
    ∧ (emitFragments 48 32 100 st0 0 f0).map Frame.compound_id =
        List.replicate
          ((f0.body.length + (100 - 48 - 32) - 1) / (100 - 48 - 32)) 0
    ∧ (emitFragments 48 32 100 st0 0 f0).map Frame.compound_size =
        List.replicate
          ((f0.body.length + (100 - 48 - 32) - 1) / (100 - 48 - 32))
          ((f0.body.length + 48 + (100 - 48 - 32) - 1) / (100 - 48 - 32))
    ∧ (emitFragments 48 32 100 st0 0 f0).map Frame.compound_index =
        List.range
          ((f0.body.length + (100 - 48 - 32) - 1) / (100 - 48 - 32))
    ∧ (emitFragments 48 32 100 st0 0 f0).map Frame.reliability =
        List.replicate
          ((f0.body.length + (100 - 48 - 32) - 1) / (100 - 48 - 32))
          f0.reliability
    ∧ (emitFragments 48 32 100 st0 0 f0).map Frame.order_channel =
        List.replicate
          ((f0.body.length + (100 - 48 - 32) - 1) / (100 - 48 - 32)) 0
    ∧ (emitFragments 48 32 100 st0 0 f0).map Frame.order_index =
        List.range' (st0.orderIndex 0)
          ((f0.body.length + (100 - 48 - 32) - 1) / (100 - 48 - 32))
    ∧ (emitFragments 48 32 100 st0 0 f0).map Frame.reliable_index =
        List.range' st0.ackIndex
          ((f0.body.length + (100 - 48 - 32) - 1) / (100 - 48 - 32)) :=
  c1_split_fragment_fields 48 32 100 0 st0 f0 rfl (by decide) (by decide)

end Inferno
